import Mathlib

/-!
Verification of the vacuum-conductance core of `app.py`.

The forward transport model `calc_C_single`, the report builder
`generate_report` and the three inverse solves (hole count, diameter,
thickness) are embedded shallowly over the real numbers, following the
source line by line.  `scipy.optimize.brentq` is external to the
repository and is modelled from the spec as a bracketed root finder.
-/

namespace Conductance

noncomputable section

/-- The gas configuration assembled in the sidebar of `app.py`:
temperature `T` [K], average pressure `P_avg` [Pa], differential
pressure `Delta_P` [Pa], molar mass `M` [kg/mol] and dynamic viscosity
`mu` [Pa·s] (both already converted to SI, as the sidebar does). -/
structure GasState where
  T : ℝ
  P_avg : ℝ
  Delta_P : ℝ
  M : ℝ
  mu : ℝ

/-- `R_gas = 8.314` from the sidebar of `app.py`. -/
def R_gas : ℝ := 8.314

/-- `v_avg = np.sqrt(8 * R_gas * T / (np.pi * M))` from the sidebar. -/
def v_avg (g : GasState) : ℝ :=
  Real.sqrt (8 * R_gas * g.T / (Real.pi * g.M))

/-- The default sidebar configuration of `app.py`:
`T = 293`, `P_avg = 1.1`, `Delta_P = 1.8`, `M = 70.9 g/mol`,
`mu = 1.32e-5 Pa·s` (after the sidebar unit conversions). -/
def defaultGas : GasState :=
  { T := 293, P_avg := 1.1, Delta_P := 1.8, M := 70.9 * 1e-3, mu := 1.32 * 1e-5 }

/-- `calc_C_single` from `app.py`, line by line. -/
def calc_C_single (g : GasState) (L_m D_m : ℝ) : ℝ :=
  if L_m ≤ 0 ∨ D_m ≤ 0 then 1e-20
  else
    let r := D_m / 2
    let A := Real.pi * r ^ 2
    let alpha := 1 / (1 + 3 * L_m / (4 * D_m))
    let C_mol := 1 / 4 * A * v_avg g * alpha
    let C_visc := Real.pi * D_m ^ 4 * g.P_avg / (128 * g.mu * L_m)
    1 / (1 / C_mol + 1 / C_visc)

/-- The molecular-flow term of `calc_C_single`:
`C_mol = (1/4) * A * v_avg * alpha` with `A = π(D/2)²` and the Clausing
factor `alpha = 1/(1 + 3L/(4D))`. -/
def C_mol (g : GasState) (L_m D_m : ℝ) : ℝ :=
  1 / 4 * (Real.pi * (D_m / 2) ^ 2) * v_avg g * (1 / (1 + 3 * L_m / (4 * D_m)))

/-- The viscous-flow term of `calc_C_single`:
`C_visc = π D⁴ P_avg / (128 μ L)`. -/
def C_visc (g : GasState) (L_m D_m : ℝ) : ℝ :=
  Real.pi * D_m ^ 4 * g.P_avg / (128 * g.mu * L_m)

lemma calc_C_single_eq (g : GasState) {L D : ℝ} (hL : 0 < L) (hD : 0 < D) :
    calc_C_single g L D = 1 / (1 / C_mol g L D + 1 / C_visc g L D) := by
  simp only [calc_C_single, C_mol, C_visc]
  rw [if_neg (by push_neg; exact ⟨hL, hD⟩)]

/-- Python's `int()` conversion on a real number: truncation toward zero. -/
def pyInt (x : ℝ) : ℤ := if 0 ≤ x then ⌊x⌋ else ⌈x⌉

/-- Python's `round()` on a real number: round half to even. -/
def pyRound (x : ℝ) : ℤ :=
  if Int.fract x = 1 / 2 then (if Even ⌊x⌋ then ⌊x⌋ else ⌊x⌋ + 1) else round x

lemma pyInt_intCast (n : ℤ) : pyInt (n : ℝ) = n := by
  unfold pyInt
  split_ifs with h
  · exact Int.floor_intCast n
  · exact Int.ceil_intCast n

/-- The eight-field record assembled by `generate_report` in `app.py`
(the numeric values behind the formatted strings). -/
structure ReportRecord where
  L_mm : ℝ
  D_mm : ℝ
  numbers : ℤ
  V_total : ℝ
  C_total : ℝ
  Q : ℝ
  Res_Time_ms : ℝ
  Overall : ℝ

/-- `generate_report` from `app.py`, line by line. -/
def generate_report (g : GasState) (L_mm D_mm N : ℝ) : ReportRecord :=
  let L_m := L_mm * 1e-3
  let D_m := D_mm * 1e-3
  let r_m := D_m / 2
  let C_single := calc_C_single g L_m D_m
  let C_total := C_single * N
  let A_hole := Real.pi * r_m ^ 2
  let V_total := N * A_hole * L_m
  let Q := C_total * g.Delta_P
  let Res_Time_ms := if 0 < Q then g.P_avg * V_total / Q * 1000 else 0
  { L_mm := L_mm, D_mm := D_mm, numbers := pyInt N, V_total := V_total,
    C_total := C_total, Q := Q, Res_Time_ms := Res_Time_ms, Overall := C_total }

/-- The outputs of tab 2 of `app.py`: the report table built from the
rounded hole count, and the info line showing that same rounded count. -/
structure Tab2Output where
  report : ReportRecord
  infoHoles : ℤ

/-- Tab 2 of `app.py`:
`N2 = int(round(C_target2 / calc_C_single(L2*1e-3, D2*1e-3)))`,
then `generate_report(L2, D2, N2)` and `st.info` showing `N2`. -/
def tab2_run (g : GasState) (L_mm D_mm C_target : ℝ) : Tab2Output :=
  let C_single := calc_C_single g (L_mm * 1e-3) (D_mm * 1e-3)
  let N2 : ℤ := pyRound (C_target / C_single)
  { report := generate_report g L_mm D_mm (N2 : ℝ), infoHoles := N2 }

open Classical in
/-- Modelled from the spec: `scipy.optimize.brentq` is not part of the
repository.  The spec describes it as bracketed root-finding "requiring a
sign change between the bracket endpoints", failing when "no sign change
exists in the bracket" and otherwise converging to a root inside the
bracket.  `none` stands for the raised exception. -/
def brentqM (f : ℝ → ℝ) (a b : ℝ) : Option ℝ :=
  if h : f a * f b ≤ 0 ∧ ∃ x, x ∈ Set.Icc a b ∧ f x = 0 then some h.2.choose
  else none

/-- Tab 3 of `app.py`: `target_single = C_target3 / N3`,
`ans_m = brentq(func, 1e-5, 0.050)` on
`func(D_guess) = calc_C_single(L3*1e-3, D_guess) - target_single`,
returning `D_sol = ans_m * 1000` (mm) on success. -/
def tab3_solve (g : GasState) (L_mm N C_target : ℝ) : Option ℝ :=
  Option.map (fun m => m * 1000)
    (brentqM (fun D_guess => calc_C_single g (L_mm * 1e-3) D_guess - C_target / N)
      1e-5 0.05)

/-- Tab 4 of `app.py`: `target_single = C_target4 / N4`,
`ans_m = brentq(func, 1e-4, 1.0)` on
`func(L_guess) = calc_C_single(L_guess, D4*1e-3) - target_single`,
returning `L_sol = ans_m * 1000` (mm) on success. -/
def tab4_solve (g : GasState) (D_mm N C_target : ℝ) : Option ℝ :=
  Option.map (fun m => m * 1000)
    (brentqM (fun L_guess => calc_C_single g L_guess (D_mm * 1e-3) - C_target / N)
      1e-4 1.0)

/-! ### Basic positivity facts -/

lemma v_avg_pos (g : GasState) (hT : 0 < g.T) (hM : 0 < g.M) : 0 < v_avg g := by
  unfold v_avg R_gas
  apply Real.sqrt_pos.mpr
  have hpi := Real.pi_pos
  positivity

lemma C_mol_pos (g : GasState) {L D : ℝ} (hv : 0 < v_avg g) (hL : 0 < L)
    (hD : 0 < D) : 0 < C_mol g L D := by
  unfold C_mol
  have hpi := Real.pi_pos
  positivity

lemma C_visc_pos (g : GasState) {L D : ℝ} (hP : 0 < g.P_avg) (hmu : 0 < g.mu)
    (hL : 0 < L) (hD : 0 < D) : 0 < C_visc g L D := by
  unfold C_visc
  have hpi := Real.pi_pos
  positivity

lemma calc_C_single_pos (g : GasState) {L D : ℝ} (hv : 0 < v_avg g)
    (hP : 0 < g.P_avg) (hmu : 0 < g.mu) (hL : 0 < L) (hD : 0 < D) :
    0 < calc_C_single g L D := by
  rw [calc_C_single_eq g hL hD]
  have h1 := C_mol_pos g hv hL hD
  have h2 := C_visc_pos g hP hmu hL hD
  positivity

/-! ### C1: the single-aperture formula -/

/-- C1: for a gas state with positive temperature, molar mass, viscosity and
average pressure, and positive thickness `L` and diameter `D`, the
single-aperture conductance equals `1/(1/C_mol + 1/C_visc)` with
`C_mol = (1/4)·A·v̄·α`, `A = π(D/2)²`, `α = 1/(1+3L/(4D))`,
`v̄ = sqrt(8·8.314·T/(π·M))` and `C_visc = π·D⁴·P_avg/(128·μ·L)`. -/
theorem c1_conductance_formula (g : GasState) (hT : 0 < g.T) (hM : 0 < g.M)
    (hmu : 0 < g.mu) (hP : 0 < g.P_avg) (L D : ℝ) (hL : 0 < L) (hD : 0 < D) :
    calc_C_single g L D =
      1 / (1 / (1 / 4 * (Real.pi * (D / 2) ^ 2) *
            Real.sqrt (8 * 8.314 * g.T / (Real.pi * g.M)) *
            (1 / (1 + 3 * L / (4 * D)))) +
          1 / (Real.pi * D ^ 4 * g.P_avg / (128 * g.mu * L))) := by
  simp only [calc_C_single, v_avg, R_gas]
  rw [if_neg (by push_neg; exact ⟨hL, hD⟩)]

theorem c1_witness :
    calc_C_single defaultGas 0.01 0.0025 =
      1 / (1 / (1 / 4 * (Real.pi * ((0.0025 : ℝ) / 2) ^ 2) *
            Real.sqrt (8 * 8.314 * defaultGas.T / (Real.pi * defaultGas.M)) *
            (1 / (1 + 3 * 0.01 / (4 * 0.0025)))) +
          1 / (Real.pi * (0.0025 : ℝ) ^ 4 * defaultGas.P_avg /
            (128 * defaultGas.mu * 0.01))) :=
  c1_conductance_formula defaultGas (by norm_num [defaultGas])
    (by norm_num [defaultGas]) (by norm_num [defaultGas])
    (by norm_num [defaultGas]) 0.01 0.0025 (by norm_num) (by norm_num)

/-! ### C4: the degenerate branch -/

/-- C4: for every gas state and all `L ≤ 0` or `D ≤ 0`, `calc_C_single`
returns exactly the sentinel `1e-20`, a fixed small positive value. -/
theorem c4_degenerate_sentinel (g : GasState) (L D : ℝ)
    (h : L ≤ 0 ∨ D ≤ 0) :
    calc_C_single g L D = 1e-20 ∧ (0 : ℝ) < 1e-20 := by
  refine ⟨?_, by norm_num⟩
  simp only [calc_C_single]
  rw [if_pos h]

theorem c4_witness :
    calc_C_single defaultGas 0 0.0025 = 1e-20 ∧ (0 : ℝ) < 1e-20 :=
  c4_degenerate_sentinel defaultGas 0 0.0025 (Or.inl le_rfl)

/-! ### C7: the report formulas -/

/-- C7: for every gas state, geometry in mm and hole count `N > 0`, the
report record satisfies `C_total = calc_C_single(L·1e-3, D·1e-3) · N`
(exactly linear in `N`),
`V_total = N · π·(D·1e-3/2)² · (L·1e-3)` and `Q = C_total · ΔP`. -/
theorem c7_report_formulas (g : GasState) (L_mm D_mm N : ℝ) (hN : 0 < N) :
    (generate_report g L_mm D_mm N).C_total
        = calc_C_single g (L_mm * 1e-3) (D_mm * 1e-3) * N ∧
    (generate_report g L_mm D_mm N).V_total
        = N * (Real.pi * (D_mm * 1e-3 / 2) ^ 2) * (L_mm * 1e-3) ∧
    (generate_report g L_mm D_mm N).Q
        = (generate_report g L_mm D_mm N).C_total * g.Delta_P :=
  ⟨rfl, rfl, rfl⟩

theorem c7_witness :
    (generate_report defaultGas 10 2.5 2200).C_total
        = calc_C_single defaultGas (10 * 1e-3) (2.5 * 1e-3) * 2200 ∧
    (generate_report defaultGas 10 2.5 2200).V_total
        = 2200 * (Real.pi * ((2.5 : ℝ) * 1e-3 / 2) ^ 2) * (10 * 1e-3) ∧
    (generate_report defaultGas 10 2.5 2200).Q
        = (generate_report defaultGas 10 2.5 2200).C_total * defaultGas.Delta_P :=
  c7_report_formulas defaultGas 10 2.5 2200 (by norm_num)

/-! ### C8: residence time -/

/-- C8: the reported residence time is `P_avg · V_total / Q · 1000` (ms)
when the throughput `Q` is positive, and exactly `0` when `Q = 0`; in
particular it is `0` whenever the differential pressure is `0`. -/
theorem c8_residence_time (g : GasState) (L_mm D_mm N : ℝ) :
    (0 < (generate_report g L_mm D_mm N).Q →
      (generate_report g L_mm D_mm N).Res_Time_ms
        = g.P_avg * (generate_report g L_mm D_mm N).V_total
            / (generate_report g L_mm D_mm N).Q * 1000) ∧
    ((generate_report g L_mm D_mm N).Q = 0 →
      (generate_report g L_mm D_mm N).Res_Time_ms = 0) ∧
    (g.Delta_P = 0 → (generate_report g L_mm D_mm N).Res_Time_ms = 0) := by
  refine ⟨?_, ?_, ?_⟩ <;> simp only [generate_report]
  · intro h
    rw [if_pos h]
  · intro h
    rw [if_neg (by rw [h]; exact lt_irrefl 0)]
  · intro h
    simp [h]

theorem c8_witness :
    ((0:ℝ) < (generate_report defaultGas 10 2.5 2200).Q →
      (generate_report defaultGas 10 2.5 2200).Res_Time_ms
        = defaultGas.P_avg * (generate_report defaultGas 10 2.5 2200).V_total
            / (generate_report defaultGas 10 2.5 2200).Q * 1000) ∧
    ({ defaultGas with Delta_P := 0 }.Delta_P = 0 →
      (generate_report { defaultGas with Delta_P := 0 } 10 2.5 2200).Res_Time_ms = 0) :=
  ⟨(c8_residence_time defaultGas 10 2.5 2200).1,
    (c8_residence_time { defaultGas with Delta_P := 0 } 10 2.5 2200).2.2⟩

/-! ### C10: residence time is independent of the hole count -/

/-- C10: for every gas state with positive differential pressure and
positive geometry, the residence time reported by `generate_report` is
the same for any two positive hole counts: the count scales volume and
throughput alike and cancels. -/
theorem c10_residence_independent (g : GasState) (hdp : 0 < g.Delta_P)
    (L_mm D_mm N1 N2 : ℝ) (hL : 0 < L_mm) (hD : 0 < D_mm)
    (h1 : 0 < N1) (h2 : 0 < N2) :
    (generate_report g L_mm D_mm N1).Res_Time_ms
      = (generate_report g L_mm D_mm N2).Res_Time_ms := by
  simp only [generate_report]
  set C := calc_C_single g (L_mm * 1e-3) (D_mm * 1e-3) with hC
  by_cases hc : 0 < C
  · have key : ∀ N : ℝ, 0 < N →
        g.P_avg * (N * (Real.pi * (D_mm * 1e-3 / 2) ^ 2) * (L_mm * 1e-3))
            / (C * N * g.Delta_P) * 1000
          = g.P_avg * ((Real.pi * (D_mm * 1e-3 / 2) ^ 2) * (L_mm * 1e-3))
            / (C * g.Delta_P) * 1000 := by
      intro N hN
      rw [div_mul_eq_mul_div, div_mul_eq_mul_div, div_eq_div_iff (by positivity)
        (by positivity)]
      ring
    rw [if_pos (by positivity), if_pos (by positivity), key N1 h1, key N2 h2]
  · push_neg at hc
    have k1 : C * N1 * g.Delta_P ≤ 0 :=
      mul_nonpos_of_nonpos_of_nonneg (mul_nonpos_of_nonpos_of_nonneg hc h1.le) hdp.le
    have k2 : C * N2 * g.Delta_P ≤ 0 :=
      mul_nonpos_of_nonpos_of_nonneg (mul_nonpos_of_nonpos_of_nonneg hc h2.le) hdp.le
    rw [if_neg (not_lt.mpr k1), if_neg (not_lt.mpr k2)]

theorem c10_witness :
    (generate_report defaultGas 10 2.5 100).Res_Time_ms
      = (generate_report defaultGas 10 2.5 200).Res_Time_ms :=
  c10_residence_independent defaultGas (by norm_num [defaultGas]) 10 2.5 100 200
    (by norm_num) (by norm_num) (by norm_num) (by norm_num)

/-! ### C2: monotonicity of the forward model -/

lemma C_mol_anti_L (g : GasState) {L1 L2 D : ℝ} (hv : 0 ≤ v_avg g)
    (hD : 0 < D) (hL1 : 0 < L1) (h : L1 ≤ L2) :
    C_mol g L2 D ≤ C_mol g L1 D := by
  unfold C_mol
  have hpi := Real.pi_pos
  gcongr

lemma C_mol_mono_D (g : GasState) {L D1 D2 : ℝ} (hv : 0 ≤ v_avg g)
    (hL : 0 < L) (hD1 : 0 < D1) (h : D1 ≤ D2) :
    C_mol g L D1 ≤ C_mol g L D2 := by
  unfold C_mol
  have hpi := Real.pi_pos
  have hD2 : 0 < D2 := lt_of_lt_of_le hD1 h
  gcongr

lemma C_visc_anti_L (g : GasState) {L1 L2 D : ℝ} (hP : 0 ≤ g.P_avg)
    (hmu : 0 < g.mu) (hL1 : 0 < L1) (h : L1 ≤ L2) :
    C_visc g L2 D ≤ C_visc g L1 D := by
  unfold C_visc
  have hpi := Real.pi_pos
  gcongr

lemma C_visc_mono_D (g : GasState) {L D1 D2 : ℝ} (hP : 0 ≤ g.P_avg)
    (hmu : 0 < g.mu) (hL : 0 < L) (hD1 : 0 ≤ D1) (h : D1 ≤ D2) :
    C_visc g L D1 ≤ C_visc g L D2 := by
  unfold C_visc
  have hpi := Real.pi_pos
  gcongr

lemma combined_le {m1 m2 v1 v2 : ℝ} (hm2 : 0 < m2) (hv2 : 0 < v2)
    (hm : m2 ≤ m1) (hv : v2 ≤ v1) :
    1 / (1 / m2 + 1 / v2) ≤ 1 / (1 / m1 + 1 / v1) := by
  have hm1 : 0 < m1 := lt_of_lt_of_le hm2 hm
  have hv1 : 0 < v1 := lt_of_lt_of_le hv2 hv
  gcongr

/-- C2: over the physical branch, the single-aperture conductance is
non-increasing in the thickness and non-decreasing in the diameter, for
every gas state with positive temperature, molar mass, viscosity and
average pressure. -/
theorem c2_conductance_monotone (g : GasState) (hT : 0 < g.T) (hM : 0 < g.M)
    (hmu : 0 < g.mu) (hP : 0 < g.P_avg) :
    (∀ D L1 L2, 0 < D → 0 < L1 → L1 < L2 →
        calc_C_single g L2 D ≤ calc_C_single g L1 D) ∧
    (∀ L D1 D2, 0 < L → 0 < D1 → D1 < D2 →
        calc_C_single g L D1 ≤ calc_C_single g L D2) := by
  have hv := v_avg_pos g hT hM
  constructor
  · intro D L1 L2 hD hL1 h12
    have hL2 : 0 < L2 := lt_trans hL1 h12
    rw [calc_C_single_eq g hL2 hD, calc_C_single_eq g hL1 hD]
    exact combined_le (C_mol_pos g hv hL2 hD) (C_visc_pos g hP hmu hL2 hD)
      (C_mol_anti_L g hv.le hD hL1 h12.le) (C_visc_anti_L g hP.le hmu hL1 h12.le)
  · intro L D1 D2 hL hD1 h12
    have hD2 : 0 < D2 := lt_trans hD1 h12
    rw [calc_C_single_eq g hL hD1, calc_C_single_eq g hL hD2]
    exact combined_le (C_mol_pos g hv hL hD1) (C_visc_pos g hP hmu hL hD1)
      (C_mol_mono_D g hv.le hL hD1 h12.le) (C_visc_mono_D g hP.le hmu hL hD1.le h12.le)

theorem c2_witness :
    calc_C_single defaultGas 0.02 0.0025 ≤ calc_C_single defaultGas 0.01 0.0025 ∧
    calc_C_single defaultGas 0.01 0.0025 ≤ calc_C_single defaultGas 0.01 0.003 :=
  ⟨(c2_conductance_monotone defaultGas (by norm_num [defaultGas])
      (by norm_num [defaultGas]) (by norm_num [defaultGas])
      (by norm_num [defaultGas])).1 0.0025 0.01 0.02
      (by norm_num) (by norm_num) (by norm_num),
    (c2_conductance_monotone defaultGas (by norm_num [defaultGas])
      (by norm_num [defaultGas]) (by norm_num [defaultGas])
      (by norm_num [defaultGas])).2 0.01 0.0025 0.003
      (by norm_num) (by norm_num) (by norm_num)⟩

/-! ### Numeric bounds for the default configuration -/

lemma v_avg_default_gt : (295 : ℝ) < v_avg defaultGas := by
  simp only [v_avg, defaultGas, R_gas]
  rw [Real.lt_sqrt (by norm_num), lt_div_iff (by positivity)]
  nlinarith [Real.pi_lt_d2]

lemma v_avg_default_lt : v_avg defaultGas < 296 := by
  simp only [v_avg, defaultGas, R_gas]
  rw [Real.sqrt_lt' (by norm_num), div_lt_iff (by positivity)]
  nlinarith [Real.pi_gt_d6]

lemma v_avg_default_pos : 0 < v_avg defaultGas :=
  lt_trans (by norm_num) v_avg_default_gt

lemma calc_C_single_le_C_visc (g : GasState) {L D : ℝ} (hv : 0 < v_avg g)
    (hP : 0 < g.P_avg) (hmu : 0 < g.mu) (hL : 0 < L) (hD : 0 < D) :
    calc_C_single g L D ≤ C_visc g L D := by
  rw [calc_C_single_eq g hL hD]
  have h1 := C_mol_pos g hv hL hD
  have h2 := C_visc_pos g hP hmu hL hD
  calc 1 / (1 / C_mol g L D + 1 / C_visc g L D)
      ≤ 1 / (1 / C_visc g L D) :=
        one_div_le_one_div_of_le (by positivity) (le_add_of_nonneg_left (by positivity))
    _ = C_visc g L D := one_div_one_div _

lemma calc_C_single_lower (g : GasState) {L D m v : ℝ} (hL : 0 < L) (hD : 0 < D)
    (hm : 0 < m) (hvv : 0 < v) (h1 : m ≤ C_mol g L D) (h2 : v ≤ C_visc g L D) :
    1 / (1 / m + 1 / v) ≤ calc_C_single g L D := by
  rw [calc_C_single_eq g hL hD]
  exact combined_le hm hvv h1 h2

lemma calc_C_single_upper (g : GasState) {L D m v : ℝ} (hv : 0 < v_avg g)
    (hP : 0 < g.P_avg) (hmu : 0 < g.mu) (hL : 0 < L) (hD : 0 < D)
    (h1 : C_mol g L D ≤ m) (h2 : C_visc g L D ≤ v) :
    calc_C_single g L D ≤ 1 / (1 / m + 1 / v) := by
  rw [calc_C_single_eq g hL hD]
  exact combined_le (C_mol_pos g hv hL hD) (C_visc_pos g hP hmu hL hD) h1 h2

lemma default_P_avg_pos : 0 < defaultGas.P_avg := by norm_num [defaultGas]

lemma default_mu_pos : 0 < defaultGas.mu := by norm_num [defaultGas]

lemma conductance_at_thin_diameter :
    calc_C_single defaultGas (10 * 1e-3) 1e-5 < 0.0157 / 2200 := by
  refine lt_of_le_of_lt (calc_C_single_le_C_visc defaultGas v_avg_default_pos
    default_P_avg_pos default_mu_pos (by norm_num) (by norm_num)) ?_
  unfold C_visc
  simp only [defaultGas]
  rw [div_lt_iff (by norm_num)]
  nlinarith [Real.pi_lt_d2]

lemma conductance_at_wide_diameter :
    0.0157 / 2200 < calc_C_single defaultGas (10 * 1e-3) 0.05 := by
  have hm : (0.12 : ℝ) ≤ C_mol defaultGas (10 * 1e-3) 0.05 := by
    unfold C_mol
    nlinarith [mul_le_mul Real.pi_gt_d2.le v_avg_default_gt.le
      (by norm_num : (0:ℝ) ≤ 295) Real.pi_pos.le]
  have hv2 : (1.2 : ℝ) ≤ C_visc defaultGas (10 * 1e-3) 0.05 := by
    unfold C_visc
    simp only [defaultGas]
    rw [le_div_iff (by norm_num)]
    nlinarith [Real.pi_gt_d2]
  calc (0.0157 : ℝ) / 2200 < 1 / (1 / 0.12 + 1 / 1.2) := by norm_num
    _ ≤ calc_C_single defaultGas (10 * 1e-3) 0.05 :=
        calc_C_single_lower defaultGas (by norm_num) (by norm_num)
          (by norm_num) (by norm_num) hm hv2

lemma conductance_at_thin_plate :
    0.0157 / 2200 < calc_C_single defaultGas 1e-4 (2.5 * 1e-3) := by
  have hm : (3.5e-4 : ℝ) ≤ C_mol defaultGas 1e-4 (2.5 * 1e-3) := by
    unfold C_mol
    nlinarith [mul_le_mul Real.pi_gt_d2.le v_avg_default_gt.le
      (by norm_num : (0:ℝ) ≤ 295) Real.pi_pos.le]
  have hv2 : (7.9e-4 : ℝ) ≤ C_visc defaultGas 1e-4 (2.5 * 1e-3) := by
    unfold C_visc
    simp only [defaultGas]
    rw [le_div_iff (by norm_num)]
    nlinarith [Real.pi_gt_d2]
  calc (0.0157 : ℝ) / 2200 < 1 / (1 / 3.5e-4 + 1 / 7.9e-4) := by norm_num
    _ ≤ calc_C_single defaultGas 1e-4 (2.5 * 1e-3) :=
        calc_C_single_lower defaultGas (by norm_num) (by norm_num)
          (by norm_num) (by norm_num) hm hv2

lemma conductance_at_thick_plate :
    calc_C_single defaultGas 1.0 (2.5 * 1e-3) < 0.0157 / 2200 := by
  refine lt_of_le_of_lt (calc_C_single_le_C_visc defaultGas v_avg_default_pos
    default_P_avg_pos default_mu_pos (by norm_num) (by norm_num)) ?_
  unfold C_visc
  simp only [defaultGas]
  rw [div_lt_iff (by norm_num)]
  nlinarith [Real.pi_lt_d2]

lemma conductance_wide_diameter_ub :
    calc_C_single defaultGas (10 * 1e-3) 0.05 < 2 := by
  refine lt_of_le_of_lt (calc_C_single_le_C_visc defaultGas v_avg_default_pos
    default_P_avg_pos default_mu_pos (by norm_num) (by norm_num)) ?_
  unfold C_visc
  simp only [defaultGas]
  rw [div_lt_iff (by norm_num)]
  nlinarith [Real.pi_lt_d2]

lemma conductance_thin_plate_ub :
    calc_C_single defaultGas 1e-4 (2.5 * 1e-3) < 1 := by
  refine lt_of_le_of_lt (calc_C_single_le_C_visc defaultGas v_avg_default_pos
    default_P_avg_pos default_mu_pos (by norm_num) (by norm_num)) ?_
  unfold C_visc
  simp only [defaultGas]
  rw [div_lt_iff (by norm_num)]
  nlinarith [Real.pi_lt_d2]

/-! ### The modelled root finder -/

lemma brentqM_eq_none {f : ℝ → ℝ} {a b : ℝ} (h : 0 < f a * f b) :
    brentqM f a b = none := by
  unfold brentqM
  exact dif_neg (fun hc => absurd h (not_lt.mpr hc.1))

lemma brentqM_eq_some {f : ℝ → ℝ} {a b : ℝ} (hsign : f a * f b ≤ 0)
    (hex : ∃ x, x ∈ Set.Icc a b ∧ f x = 0) :
    ∃ x, brentqM f a b = some x ∧ x ∈ Set.Icc a b ∧ f x = 0 := by
  have hc : f a * f b ≤ 0 ∧ ∃ x, x ∈ Set.Icc a b ∧ f x = 0 := ⟨hsign, hex⟩
  refine ⟨hc.2.choose, ?_, hc.2.choose_spec⟩
  unfold brentqM
  rw [dif_pos hc]

lemma brentqM_some_spec {f : ℝ → ℝ} {a b x : ℝ} (h : brentqM f a b = some x) :
    x ∈ Set.Icc a b ∧ f x = 0 := by
  unfold brentqM at h
  split_ifs at h with hc
  have hx := Option.some_inj.mp h
  rw [← hx]
  exact hc.2.choose_spec

/-! ### C9: positivity of the forward model -/

/-- C9 counterexample: the claim allows `P_avg = 0` (the declared range is
`P_avg ≥ 0`), but then the viscous term is exactly `0` for a valid
geometry, so evaluating `1/C_mol + 1/C_visc` divides by zero — contrary
to the claim that no division by zero arises. -/
theorem c9_cex :
    C_visc { T := 293, P_avg := 0, Delta_P := 1.8, M := 70.9 * 1e-3,
              mu := 1.32 * 1e-5 } (10 * 1e-3) (2.5 * 1e-3) = 0 := by
  unfold C_visc
  norm_num

/-- C9 (amended): for `P_avg > 0` (and the other gas parameters positive)
and `L, D > 0`, the conductance is strictly positive and every divisor in
`1/(1/C_mol + 1/C_visc)` is strictly positive, so no division by zero or
infinity arises. -/
theorem c9_conductance_positive (g : GasState) (hT : 0 < g.T) (hM : 0 < g.M)
    (hmu : 0 < g.mu) (hP : 0 < g.P_avg) (L D : ℝ) (hL : 0 < L) (hD : 0 < D) :
    0 < calc_C_single g L D ∧ 0 < C_mol g L D ∧ 0 < C_visc g L D ∧
      0 < 1 / C_mol g L D + 1 / C_visc g L D := by
  have hv := v_avg_pos g hT hM
  have h1 := C_mol_pos g hv hL hD
  have h2 := C_visc_pos g hP hmu hL hD
  exact ⟨calc_C_single_pos g hv hP hmu hL hD, h1, h2, by positivity⟩

theorem c9_witness :
    0 < calc_C_single defaultGas 0.01 0.0025 ∧
    0 < C_mol defaultGas 0.01 0.0025 ∧ 0 < C_visc defaultGas 0.01 0.0025 ∧
      0 < 1 / C_mol defaultGas 0.01 0.0025 + 1 / C_visc defaultGas 0.01 0.0025 :=
  c9_conductance_positive defaultGas (by norm_num [defaultGas])
    (by norm_num [defaultGas]) (by norm_num [defaultGas])
    (by norm_num [defaultGas]) 0.01 0.0025 (by norm_num) (by norm_num)

/-! ### C5: failure without a sign change -/

/-- C5: when the solver's objective has no sign change over the bracket
(diameter bracket `[1e-5, 0.05]` m, thickness bracket `[1e-4, 1.0]` m),
the inverse solve returns the explicit no-solution outcome `none` rather
than a value; and any returned value is a genuine in-bracket solution —
a bracket boundary is never returned unless it actually solves the
equation. -/
theorem c5_solver_no_sign_change (g : GasState) (L_mm D_mm N C_target : ℝ) :
    (0 < (calc_C_single g (L_mm * 1e-3) 1e-5 - C_target / N) *
          (calc_C_single g (L_mm * 1e-3) 0.05 - C_target / N) →
        tab3_solve g L_mm N C_target = none) ∧
    (∀ x, tab3_solve g L_mm N C_target = some x →
        x / 1000 ∈ Set.Icc (1e-5 : ℝ) 0.05 ∧
          calc_C_single g (L_mm * 1e-3) (x / 1000) = C_target / N) ∧
    (0 < (calc_C_single g 1e-4 (D_mm * 1e-3) - C_target / N) *
          (calc_C_single g 1.0 (D_mm * 1e-3) - C_target / N) →
        tab4_solve g D_mm N C_target = none) ∧
    (∀ x, tab4_solve g D_mm N C_target = some x →
        x / 1000 ∈ Set.Icc (1e-4 : ℝ) 1.0 ∧
          calc_C_single g (x / 1000) (D_mm * 1e-3) = C_target / N) := by
  refine ⟨?_, ?_, ?_, ?_⟩
  · intro h
    unfold tab3_solve
    rw [brentqM_eq_none h]
    rfl
  · intro x hx
    unfold tab3_solve at hx
    cases hmo : brentqM (fun D_guess =>
        calc_C_single g (L_mm * 1e-3) D_guess - C_target / N) 1e-5 0.05 with
    | none => rw [hmo] at hx; exact absurd hx (by simp)
    | some m =>
        rw [hmo] at hx
        have hxm : m * 1000 = x := Option.some_inj.mp hx
        obtain ⟨hmem, hroot⟩ := brentqM_some_spec hmo
        have hdiv : x / 1000 = m := by rw [← hxm]; field_simp
        rw [hdiv]
        exact ⟨hmem, sub_eq_zero.mp hroot⟩
  · intro h
    unfold tab4_solve
    rw [brentqM_eq_none h]
    rfl
  · intro x hx
    unfold tab4_solve at hx
    cases hmo : brentqM (fun L_guess =>
        calc_C_single g L_guess (D_mm * 1e-3) - C_target / N) 1e-4 1.0 with
    | none => rw [hmo] at hx; exact absurd hx (by simp)
    | some m =>
        rw [hmo] at hx
        have hxm : m * 1000 = x := Option.some_inj.mp hx
        obtain ⟨hmem, hroot⟩ := brentqM_some_spec hmo
        have hdiv : x / 1000 = m := by rw [← hxm]; field_simp
        rw [hdiv]
        exact ⟨hmem, sub_eq_zero.mp hroot⟩

theorem c5_witness :
    tab3_solve defaultGas 10 1000 1e9 = none ∧
    tab4_solve defaultGas 2.5 1000 1e9 = none := by
  have htarget : (1e9 : ℝ) / 1000 = 1e6 := by norm_num
  have h1 := conductance_at_thin_diameter
  have h2 := conductance_wide_diameter_ub
  have h3 := conductance_thin_plate_ub
  have h4 := conductance_at_thick_plate
  have ht : (0.0157 : ℝ) / 2200 < 1e6 := by norm_num
  constructor
  · exact (c5_solver_no_sign_change defaultGas 10 2.5 1000 1e9).1
      (by rw [htarget]; exact mul_pos_of_neg_of_neg (by linarith) (by linarith))
  · exact (c5_solver_no_sign_change defaultGas 10 2.5 1000 1e9).2.2.1
      (by rw [htarget]; exact mul_pos_of_neg_of_neg (by linarith) (by linarith))

/-! ### Continuity of the forward model on the search brackets -/

lemma contOn_diameter :
    ContinuousOn (fun D => calc_C_single defaultGas (10 * 1e-3) D)
      (Set.Icc (1e-5 : ℝ) 0.05) := by
  have hpos : ∀ x ∈ Set.Icc (1e-5 : ℝ) 0.05, (0 : ℝ) < x := fun x hx =>
    lt_of_lt_of_le (by norm_num) hx.1
  have hv := v_avg_default_pos
  have hmc : ContinuousOn (fun D => C_mol defaultGas (10 * 1e-3) D)
      (Set.Icc (1e-5 : ℝ) 0.05) := by
    unfold C_mol
    refine ContinuousOn.mul (ContinuousOn.mul (ContinuousOn.mul continuousOn_const
      (continuousOn_const.mul ((continuousOn_id.div_const 2).pow 2)))
      continuousOn_const) ?_
    refine ContinuousOn.div continuousOn_const
      (continuousOn_const.add (ContinuousOn.div continuousOn_const
        (continuousOn_const.mul continuousOn_id) ?_)) ?_
    · intro x hx
      have := hpos x hx
      positivity
    · intro x hx
      have := hpos x hx
      positivity
  have hvc : ContinuousOn (fun D => C_visc defaultGas (10 * 1e-3) D)
      (Set.Icc (1e-5 : ℝ) 0.05) := by
    unfold C_visc
    exact ((continuousOn_const.mul (continuousOn_id.pow 4)).mul
      continuousOn_const).div_const _
  have hform : ContinuousOn (fun D => 1 / (1 / C_mol defaultGas (10 * 1e-3) D
      + 1 / C_visc defaultGas (10 * 1e-3) D)) (Set.Icc (1e-5 : ℝ) 0.05) := by
    refine ContinuousOn.div continuousOn_const
      (ContinuousOn.add (ContinuousOn.div continuousOn_const hmc ?_)
        (ContinuousOn.div continuousOn_const hvc ?_)) ?_
    · intro x hx
      exact (C_mol_pos defaultGas hv (by norm_num) (hpos x hx)).ne'
    · intro x hx
      exact (C_visc_pos defaultGas default_P_avg_pos default_mu_pos
        (by norm_num) (hpos x hx)).ne'
    · intro x hx
      have h1 := C_mol_pos defaultGas hv (by norm_num : (0:ℝ) < 10 * 1e-3) (hpos x hx)
      have h2 := C_visc_pos defaultGas default_P_avg_pos default_mu_pos
        (by norm_num : (0:ℝ) < 10 * 1e-3) (hpos x hx)
      positivity
  refine ContinuousOn.congr hform ?_
  intro x hx
  exact calc_C_single_eq defaultGas (by norm_num) (hpos x hx)

lemma contOn_thickness :
    ContinuousOn (fun L => calc_C_single defaultGas L (2.5 * 1e-3))
      (Set.Icc (1e-4 : ℝ) 1.0) := by
  have hpos : ∀ x ∈ Set.Icc (1e-4 : ℝ) 1.0, (0 : ℝ) < x := fun x hx =>
    lt_of_lt_of_le (by norm_num) hx.1
  have hv := v_avg_default_pos
  have hD : (0 : ℝ) < 2.5 * 1e-3 := by norm_num
  have hmc : ContinuousOn (fun L => C_mol defaultGas L (2.5 * 1e-3))
      (Set.Icc (1e-4 : ℝ) 1.0) := by
    unfold C_mol
    refine ContinuousOn.mul continuousOn_const
      (ContinuousOn.div continuousOn_const
        (continuousOn_const.add
          ((continuousOn_const.mul continuousOn_id).div_const _)) ?_)
    intro x hx
    have := hpos x hx
    positivity
  have hvc : ContinuousOn (fun L => C_visc defaultGas L (2.5 * 1e-3))
      (Set.Icc (1e-4 : ℝ) 1.0) := by
    unfold C_visc
    refine ContinuousOn.div continuousOn_const
      (continuousOn_const.mul continuousOn_id) ?_
    intro x hx
    have hx0 := hpos x hx
    have := default_mu_pos
    positivity
  have hform : ContinuousOn (fun L => 1 / (1 / C_mol defaultGas L (2.5 * 1e-3)
      + 1 / C_visc defaultGas L (2.5 * 1e-3))) (Set.Icc (1e-4 : ℝ) 1.0) := by
    refine ContinuousOn.div continuousOn_const
      (ContinuousOn.add (ContinuousOn.div continuousOn_const hmc ?_)
        (ContinuousOn.div continuousOn_const hvc ?_)) ?_
    · intro x hx
      exact (C_mol_pos defaultGas hv (hpos x hx) hD).ne'
    · intro x hx
      exact (C_visc_pos defaultGas default_P_avg_pos default_mu_pos
        (hpos x hx) hD).ne'
    · intro x hx
      have h1 := C_mol_pos defaultGas hv (hpos x hx) hD
      have h2 := C_visc_pos defaultGas default_P_avg_pos default_mu_pos (hpos x hx) hD
      positivity
  refine ContinuousOn.congr hform ?_
  intro x hx
  exact calc_C_single_eq defaultGas (hpos x hx) hD

lemma exists_root_diameter :
    ∃ x ∈ Set.Icc (1e-5 : ℝ) 0.05,
      calc_C_single defaultGas (10 * 1e-3) x = 0.0157 / 2200 := by
  have h := intermediate_value_Icc (by norm_num : (1e-5 : ℝ) ≤ 0.05) contOn_diameter
  have hmem : (0.0157 / 2200 : ℝ) ∈
      Set.Icc (calc_C_single defaultGas (10 * 1e-3) 1e-5)
        (calc_C_single defaultGas (10 * 1e-3) 0.05) :=
    ⟨conductance_at_thin_diameter.le, conductance_at_wide_diameter.le⟩
  obtain ⟨x, hx, hfx⟩ := h hmem
  exact ⟨x, hx, hfx⟩

lemma exists_root_thickness :
    ∃ x ∈ Set.Icc (1e-4 : ℝ) 1.0,
      calc_C_single defaultGas x (2.5 * 1e-3) = 0.0157 / 2200 := by
  have h := intermediate_value_Icc' (by norm_num : (1e-4 : ℝ) ≤ 1.0) contOn_thickness
  have hmem : (0.0157 / 2200 : ℝ) ∈
      Set.Icc (calc_C_single defaultGas 1.0 (2.5 * 1e-3))
        (calc_C_single defaultGas 1e-4 (2.5 * 1e-3)) :=
    ⟨conductance_at_thick_plate.le, conductance_at_thin_plate.le⟩
  obtain ⟨x, hx, hfx⟩ := h hmem
  exact ⟨x, hx, hfx⟩

/-! ### C3: the round trip of the two bracketed solves -/

/-- C3: with `L = 10 mm`, `N = 2200` and target `0.0157 m³/s`, the
diameter solve succeeds and its solution (in mm, as returned) lies in the
bracket `[1e-5, 0.05]` m after reconversion, and forward evaluation
`N · calc_C_single` at the solved diameter reproduces the target exactly;
symmetrically for the thickness solve with `D = 2.5 mm`. -/
theorem c3_solver_round_trip :
    (∃ D_sol, tab3_solve defaultGas 10 2200 0.0157 = some D_sol ∧
        D_sol * 1e-3 ∈ Set.Icc (1e-5 : ℝ) 0.05 ∧
        2200 * calc_C_single defaultGas (10 * 1e-3) (D_sol * 1e-3) = 0.0157) ∧
    (∃ L_sol, tab4_solve defaultGas 2.5 2200 0.0157 = some L_sol ∧
        L_sol * 1e-3 ∈ Set.Icc (1e-4 : ℝ) 1.0 ∧
        2200 * calc_C_single defaultGas (L_sol * 1e-3) (2.5 * 1e-3) = 0.0157) := by
  have hms : ∀ m : ℝ, m * 1000 * 1e-3 = m := by
    intro m
    rw [mul_assoc]
    norm_num
  constructor
  · obtain ⟨r, hr, hfr⟩ := exists_root_diameter
    have hsign : (calc_C_single defaultGas (10 * 1e-3) 1e-5 - 0.0157 / 2200) *
        (calc_C_single defaultGas (10 * 1e-3) 0.05 - 0.0157 / 2200) ≤ 0 :=
      (mul_neg_of_neg_of_pos
        (by have := conductance_at_thin_diameter; linarith)
        (by have := conductance_at_wide_diameter; linarith)).le
    have hex : ∃ x, x ∈ Set.Icc (1e-5 : ℝ) 0.05 ∧
        calc_C_single defaultGas (10 * 1e-3) x - 0.0157 / 2200 = 0 :=
      ⟨r, hr, by rw [hfr]; ring⟩
    have key : ∃ x, brentqM (fun D_guess =>
          calc_C_single defaultGas (10 * 1e-3) D_guess - 0.0157 / 2200)
          1e-5 0.05 = some x ∧ x ∈ Set.Icc (1e-5 : ℝ) 0.05 ∧
          calc_C_single defaultGas (10 * 1e-3) x - 0.0157 / 2200 = 0 :=
      brentqM_eq_some hsign hex
    obtain ⟨m, hm_eq, hm_mem, hm_root⟩ := key
    refine ⟨m * 1000, ?_, ?_, ?_⟩
    · unfold tab3_solve
      rw [hm_eq]
      rfl
    · rw [hms m]
      exact hm_mem
    · rw [hms m, sub_eq_zero.mp hm_root]
      norm_num
  · obtain ⟨r, hr, hfr⟩ := exists_root_thickness
    have hsign : (calc_C_single defaultGas 1e-4 (2.5 * 1e-3) - 0.0157 / 2200) *
        (calc_C_single defaultGas 1.0 (2.5 * 1e-3) - 0.0157 / 2200) ≤ 0 :=
      (mul_neg_of_pos_of_neg
        (by have := conductance_at_thin_plate; linarith)
        (by have := conductance_at_thick_plate; linarith)).le
    have hex : ∃ x, x ∈ Set.Icc (1e-4 : ℝ) 1.0 ∧
        calc_C_single defaultGas x (2.5 * 1e-3) - 0.0157 / 2200 = 0 :=
      ⟨r, hr, by rw [hfr]; ring⟩
    have key : ∃ x, brentqM (fun L_guess =>
          calc_C_single defaultGas L_guess (2.5 * 1e-3) - 0.0157 / 2200)
          1e-4 1.0 = some x ∧ x ∈ Set.Icc (1e-4 : ℝ) 1.0 ∧
          calc_C_single defaultGas x (2.5 * 1e-3) - 0.0157 / 2200 = 0 :=
      brentqM_eq_some hsign hex
    obtain ⟨m, hm_eq, hm_mem, hm_root⟩ := key
    refine ⟨m * 1000, ?_, ?_, ?_⟩
    · unfold tab4_solve
      rw [hm_eq]
      rfl
    · rw [hms m]
      exact hm_mem
    · rw [hms m, sub_eq_zero.mp hm_root]
      norm_num

/-! ### C6: the hole-count inverse -/

lemma conductance_tab2_lb :
    (1.45e-5 : ℝ) < calc_C_single defaultGas (10 * 1e-3) (3 * 1e-3) := by
  have hm : (1.48e-4 : ℝ) ≤ C_mol defaultGas (10 * 1e-3) (3 * 1e-3) := by
    unfold C_mol
    nlinarith [mul_le_mul Real.pi_gt_d2.le v_avg_default_gt.le
      (by norm_num : (0:ℝ) ≤ 295) Real.pi_pos.le]
  have hv2 : (1.65e-5 : ℝ) ≤ C_visc defaultGas (10 * 1e-3) (3 * 1e-3) := by
    unfold C_visc
    simp only [defaultGas]
    rw [le_div_iff (by norm_num)]
    nlinarith [Real.pi_gt_d2]
  calc (1.45e-5 : ℝ) < 1 / (1 / 1.48e-4 + 1 / 1.65e-5) := by norm_num
    _ ≤ calc_C_single defaultGas (10 * 1e-3) (3 * 1e-3) :=
        calc_C_single_lower defaultGas (by norm_num) (by norm_num)
          (by norm_num) (by norm_num) hm hv2

lemma conductance_tab2_ub :
    calc_C_single defaultGas (10 * 1e-3) (3 * 1e-3) < 1.51e-5 := by
  have hm : C_mol defaultGas (10 * 1e-3) (3 * 1e-3) ≤ 1.5e-4 := by
    unfold C_mol
    nlinarith [mul_le_mul Real.pi_lt_d2.le v_avg_default_lt.le
      v_avg_default_pos.le (by norm_num : (0:ℝ) ≤ 3.15)]
  have hv2 : C_visc defaultGas (10 * 1e-3) (3 * 1e-3) ≤ 1.67e-5 := by
    unfold C_visc
    simp only [defaultGas]
    rw [div_le_iff (by norm_num)]
    nlinarith [Real.pi_lt_d2]
  calc calc_C_single defaultGas (10 * 1e-3) (3 * 1e-3)
      ≤ 1 / (1 / 1.5e-4 + 1 / 1.67e-5) :=
        calc_C_single_upper defaultGas v_avg_default_pos default_P_avg_pos
          default_mu_pos (by norm_num) (by norm_num) hm hv2
    _ < 1.51e-5 := by norm_num

/-- C6 counterexample: with the default gas, `L = 10` mm, `D = 3` mm and
target `2e-5 m³/s`, the exact real-valued count
`target / calc_C_single` is strictly between `1.3` and `1.4`, but every
count value surfaced by tab 2 (the info line and the report's count
column) is the rounded integer — neither output equals the exact
real-valued count, so the claim that the exact count "is also reported"
fails. -/
theorem c6_cex :
    ((tab2_run defaultGas 10 3 2e-5).infoHoles : ℝ)
        ≠ 2e-5 / calc_C_single defaultGas (10 * 1e-3) (3 * 1e-3) ∧
    ((tab2_run defaultGas 10 3 2e-5).report.numbers : ℝ)
        ≠ 2e-5 / calc_C_single defaultGas (10 * 1e-3) (3 * 1e-3) := by
  have hClb := conductance_tab2_lb
  have hCub := conductance_tab2_ub
  set C := calc_C_single defaultGas (10 * 1e-3) (3 * 1e-3) with hC
  have hC0 : 0 < C := lt_trans (by norm_num) hClb
  set x := 2e-5 / C with hx
  have hx13 : (1.3 : ℝ) < x := by
    rw [hx, lt_div_iff hC0]
    nlinarith
  have hx14 : x < 1.4 := by
    rw [hx, div_lt_iff hC0]
    nlinarith
  have hfloor : ⌊x⌋ = 1 := Int.floor_eq_iff.mpr (by push_cast; constructor <;> linarith)
  have hfract : Int.fract x ≠ 1 / 2 := by
    rw [show Int.fract x = x - (⌊x⌋ : ℝ) from rfl, hfloor]
    push_cast
    intro hcontra
    linarith
  have hround : pyRound x = 1 := by
    unfold pyRound
    rw [if_neg hfract, round_eq]
    exact Int.floor_eq_iff.mpr (by push_cast; constructor <;> linarith)
  have hinfo : (tab2_run defaultGas 10 3 2e-5).infoHoles = pyRound x := rfl
  have hnum : (tab2_run defaultGas 10 3 2e-5).report.numbers = pyRound x :=
    pyInt_intCast _
  constructor
  · rw [hinfo, hround]
    intro hcontra
    rw [Int.cast_one] at hcontra
    linarith
  · rw [hnum, hround]
    intro hcontra
    rw [Int.cast_one] at hcontra
    linarith

/-- C6 (amended): the hole-count inverse is computed analytically — no
root-finding — as `target / calc_C_single`, rounded to the nearest
integer; tab 2 reports that rounded count both in the info line and in
the report's count column, and uses it linearly in the total
conductance.  The exact real-valued count is not separately reported. -/
theorem c6_hole_count_analytic (g : GasState) (L_mm D_mm C_target : ℝ) :
    (tab2_run g L_mm D_mm C_target).infoHoles
        = pyRound (C_target / calc_C_single g (L_mm * 1e-3) (D_mm * 1e-3)) ∧
    (tab2_run g L_mm D_mm C_target).report.numbers
        = pyRound (C_target / calc_C_single g (L_mm * 1e-3) (D_mm * 1e-3)) ∧
    (tab2_run g L_mm D_mm C_target).report.C_total
        = calc_C_single g (L_mm * 1e-3) (D_mm * 1e-3) *
            (pyRound (C_target / calc_C_single g (L_mm * 1e-3) (D_mm * 1e-3)) : ℝ) :=
  ⟨rfl, pyInt_intCast _, rfl⟩

end

end Conductance
